import Mathlib

/-!
Verification of the financial core of the NZ Property Tax & Mortgage
Optimisation Tool (`streamlit_app.py`).

The computable core consists of:
* a per-property evaluator (lines 72-89): annual rent, simple annual
  interest, management cost, total expenses, capped tax savings, and the
  cash freed by an interest-only loan relative to the annuity
  (principal-and-interest) payment computed by `numpy_financial.pmt`;
* a revolving-credit projection loop (lines 92-104) that redirects the
  aggregate freed cash into the owner-occupied loan balance year by year;
* export paths (CSV, lines 150-151; PDF detail blocks, lines 205-210) that
  recompute per-property figures independently.

All arithmetic is embedded over `ℚ` (the Python code computes with IEEE
doubles; the model is the exact arithmetic the spec describes, and every
claim checked numerically is checked with explicit tolerances).
-/

namespace PropertyTool

/-- Repayment type of a rental property
(`"Interest-Only"` / `"Principal & Interest"` in the selectbox). -/
inductive RepaymentType where
  | interestOnly
  | principalAndInterest
deriving DecidableEq

/-- One rental property, as assembled in `rental_properties.append({...})`
(lines 48-59). The loop term is entered in whole years. -/
structure RentalProperty where
  loan : ℚ
  rate : ℚ
  term : ℕ
  rtype : RepaymentType
  rent_weekly : ℚ
  insurance : ℚ
  rates : ℚ
  maintenance : ℚ
  mgmt_fee : ℚ
  depreciation : ℚ
deriving DecidableEq

/-- `numpy_financial.pmt rate nper pv` with `fv = 0` and `when = 'end'`,
as called on line 80.  numpy-financial computes
`temp = (1+rate)**nper`, `fact = nper` when `rate == 0` else
`(1 + rate*when)*(temp-1)/rate` (`when = 0` for `'end'`), and returns
`-(fv + pv*temp)/fact`.  Division is `ℚ`-division (total, `x / 0 = 0`);
the IEEE behaviour at a zero divisor is modelled separately below. -/
def npf_pmt (rate : ℚ) (nper : ℕ) (pv : ℚ) : ℚ :=
  let temp := (1 + rate) ^ nper
  let fact := if rate = 0 then (nper : ℚ) else (temp - 1) / rate;
  -(pv * temp) / fact

/-- The per-property figures produced by one iteration of the calculation
loop (lines 72-84). -/
structure PropertyResult where
  annual_rent : ℚ
  interest : ℚ
  mgmt_cost : ℚ
  expenses : ℚ
  tax_savings : ℚ
  cash_freed : ℚ
deriving DecidableEq

/-- The per-property evaluator: the body of the calculation loop
(lines 72-84) for one property. -/
def evaluate (p : RentalProperty) (tax_rate : ℚ) : PropertyResult :=
  let annual_rent := p.rent_weekly * 52
  let interest := p.loan * p.rate
  let mgmt_cost := annual_rent * p.mgmt_fee
  let expenses := interest + p.insurance + p.rates + p.maintenance + mgmt_cost + p.depreciation
  let tax_savings := min expenses annual_rent * tax_rate
  let cash_freed :=
    match p.rtype with
    | .interestOnly =>
        let monthly_pni := npf_pmt (p.rate / 12) (p.term * 12) (-p.loan)
        let annual_pni := monthly_pni * 12
        annual_pni - interest
    | .principalAndInterest => (0 : ℚ)
  ⟨annual_rent, interest, mgmt_cost, expenses, tax_savings, cash_freed⟩

/-- One recorded year of the revolving-credit projection: the values
appended to `annual_savings`, `principal_paid` and
`cumulative_interest_saved` (lines 102-104), together with the loop
variable `year`. -/
structure YearEntry where
  year : ℕ
  interest_saved : ℚ
  principal_paid : ℚ
  cumulative_interest_saved : ℚ
deriving DecidableEq

/-- The body of the projection loop (lines 98-104), with the mutable
state (`balance`, `cumulative_saved`, `year`) passed explicitly;
`n` is the number of iterations still to run. -/
def projectAux (home_rate total_cash_freed : ℚ) :
    ℚ → ℚ → ℕ → ℕ → List YearEntry
  | _, _, _, 0 => []
  | balance, cum, year, n + 1 =>
      let balance' := balance - total_cash_freed
      let interest_saved := balance' * home_rate
      let cum' := cum + interest_saved
      ⟨year, interest_saved, total_cash_freed * (year : ℚ), cum'⟩ ::
        projectAux home_rate total_cash_freed balance' cum' (year + 1) n

/-- The revolving-credit projection (lines 92-104): `balance` starts at
`home_loan`, `cumulative_saved` at `0`, and `year` runs from `1` to
`projection_years`. -/
def project (home_loan home_rate total_cash_freed : ℚ) (years : ℕ) :
    List YearEntry :=
  projectAux home_rate total_cash_freed home_loan 0 1 years

/-- The annuity payment exactly as the spec words it:
`payment = rate * PV / (1 - (1+rate)^-n)`.  Stated separately from
`npf_pmt` so that the evaluator (which calls `numpy_financial.pmt`) can be
compared against the spec's formula. -/
def pmtSpec (rate : ℚ) (n : ℕ) (pv : ℚ) : ℚ :=
  rate * pv / (1 - (1 + rate) ^ (-(n : ℤ)))

/-- The derived `Annual Rent` column of the CSV export (line 150). -/
def csvAnnualRent (p : RentalProperty) : ℚ := p.rent_weekly * 52

/-- The derived `Interest` column of the CSV export (line 151). -/
def csvInterest (p : RentalProperty) : ℚ := p.loan * p.rate

/-- The per-property figures recomputed in the PDF detail loop. -/
structure PdfDetail where
  annual_rent : ℚ
  interest : ℚ
  mgmt_cost : ℚ
  expenses : ℚ
  tax_savings : ℚ
deriving DecidableEq

/-- The recomputation in the PDF property-detail loop (lines 205-210),
textually identical to the main calculation loop. -/
def pdfDetail (p : RentalProperty) (tax_rate : ℚ) : PdfDetail :=
  let annual_rent := p.rent_weekly * 52
  let interest := p.loan * p.rate
  let mgmt_cost := annual_rent * p.mgmt_fee
  let expenses := interest + p.insurance + p.rates + p.maintenance + mgmt_cost + p.depreciation
  let tax_savings := min expenses annual_rent * tax_rate
  ⟨annual_rent, interest, mgmt_cost, expenses, tax_savings⟩

/-!
The Python code computes with IEEE doubles, whose division never raises an
exception: a zero divisor yields `inf`/`-inf`/`nan` (with a
`RuntimeWarning`), and the computation continues.  To settle the safety
claim we re-run the annuity computation over an extended value domain in
an `Except` monad whose error channel marks exactly the places where a
Python exception could propagate.
-/

/-- A double that may be non-finite.  (Signed zeros are not distinguished,
so the sign of an infinite quotient is approximated by the sign of the
numerator; no theorem below depends on the sign of an infinity.) -/
inductive NpFloat where
  | fin : ℚ → NpFloat
  | posInf : NpFloat
  | negInf : NpFloat
  | nan : NpFloat
deriving DecidableEq

/-- IEEE division of two finite values: by zero it produces an infinity
(or `nan` for `0/0`) rather than raising. -/
def npDiv (a b : ℚ) : NpFloat :=
  if b = 0 then
    if 0 < a then .posInf else if a < 0 then .negInf else .nan
  else .fin (a / b)

/-- Multiply by a finite value. -/
def NpFloat.mulFin : NpFloat → ℚ → NpFloat
  | .fin a, q => .fin (a * q)
  | .posInf, q => if 0 < q then .posInf else if q < 0 then .negInf else .nan
  | .negInf, q => if 0 < q then .negInf else if q < 0 then .posInf else .nan
  | .nan, _ => .nan

/-- Subtract a finite value. -/
def NpFloat.subFin : NpFloat → ℚ → NpFloat
  | .fin a, q => .fin (a - q)
  | .posInf, _ => .posInf
  | .negInf, _ => .negInf
  | .nan, _ => .nan

/-- `numpy_financial.pmt` over the extended domain.  The `rate == 0`
branch is numpy-financial's own masking (it divides by `1`, not by the
zero rate), so the only division that can meet a zero divisor is the
final one, and IEEE semantics turns it into an infinity, not an error. -/
def npf_pmtE (rate : ℚ) (nper : ℕ) (pv : ℚ) : Except String NpFloat := do
  let temp := (1 + rate) ^ nper
  let fact := if rate = 0 then (nper : ℚ) else (temp - 1) / rate;
  pure (npDiv (-(pv * temp)) fact)

/-- The evaluator's result when the annuity payment is allowed to be
non-finite. -/
structure PropertyResultE where
  annual_rent : ℚ
  interest : ℚ
  mgmt_cost : ℚ
  expenses : ℚ
  tax_savings : ℚ
  cash_freed : NpFloat
deriving DecidableEq

/-- The per-property evaluator over the extended domain, with an explicit
error channel for any exception a numeric operation could raise. -/
def evaluateE (p : RentalProperty) (tax_rate : ℚ) :
    Except String PropertyResultE := do
  let annual_rent := p.rent_weekly * 52
  let interest := p.loan * p.rate
  let mgmt_cost := annual_rent * p.mgmt_fee
  let expenses := interest + p.insurance + p.rates + p.maintenance + mgmt_cost + p.depreciation
  let tax_savings := min expenses annual_rent * tax_rate
  let cash_freed ←
    match p.rtype with
    | .interestOnly => do
        let monthly_pni ← npf_pmtE (p.rate / 12) (p.term * 12) (-p.loan)
        pure ((monthly_pni.mulFin 12).subFin interest)
    | .principalAndInterest => pure (NpFloat.fin 0)
  return ⟨annual_rent, interest, mgmt_cost, expenses, tax_savings, cash_freed⟩

/-- The interest-only rental of the spec's §8 test scenario. -/
def scenarioProperty : RentalProperty :=
  { loan := 385000, rate := 499/10000, term := 30,
    rtype := .interestOnly, rent_weekly := 760, insurance := 3500,
    rates := 4300, maintenance := 2000, mgmt_fee := 52/1000,
    depreciation := 1500 }

/-- The evaluator's output on the scenario property at the 33% tax rate. -/
def scenarioResult : PropertyResult := evaluate scenarioProperty (33/100)

/-- C4: the evaluator computes annual rent, simple interest, management
cost and total expenses by the stated formulas. -/
theorem c4_evaluator_formulas (p : RentalProperty) (t : ℚ) :
    (evaluate p t).annual_rent = p.rent_weekly * 52 ∧
    (evaluate p t).interest = p.loan * p.rate ∧
    (evaluate p t).mgmt_cost = p.rent_weekly * 52 * p.mgmt_fee ∧
    (evaluate p t).expenses =
      p.loan * p.rate + p.insurance + p.rates + p.maintenance +
        p.rent_weekly * 52 * p.mgmt_fee + p.depreciation :=
  ⟨rfl, rfl, rfl, rfl⟩

/-- C5: a principal-and-interest property frees no cash, whatever its
other fields and the tax rate. -/
theorem c5_pni_cash_freed_zero (p : RentalProperty) (t : ℚ)
    (h : p.rtype = RepaymentType.principalAndInterest) :
    (evaluate p t).cash_freed = 0 := by
  simp [evaluate, h]

/-- Witness for C5 at a concrete principal-and-interest property. -/
theorem c5_pni_cash_freed_zero_witness :
    (evaluate
      { loan := 385000, rate := 499/10000, term := 30,
        rtype := .principalAndInterest, rent_weekly := 760,
        insurance := 3500, rates := 4300, maintenance := 2000,
        mgmt_fee := 52/1000, depreciation := 1500 } (33/100)).cash_freed = 0 :=
  c5_pni_cash_freed_zero _ _ rfl

/-- C10: the CSV export's derived columns and the PDF detail block's
recomputed figures agree with the main calculation loop. -/
theorem c10_export_consistency (p : RentalProperty) (t : ℚ) :
    csvAnnualRent p = (evaluate p t).annual_rent ∧
    csvInterest p = (evaluate p t).interest ∧
    (pdfDetail p t).annual_rent = (evaluate p t).annual_rent ∧
    (pdfDetail p t).interest = (evaluate p t).interest ∧
    (pdfDetail p t).mgmt_cost = (evaluate p t).mgmt_cost ∧
    (pdfDetail p t).expenses = (evaluate p t).expenses ∧
    (pdfDetail p t).tax_savings = (evaluate p t).tax_savings :=
  ⟨rfl, rfl, rfl, rfl, rfl, rfl, rfl⟩

/-- C7: the evaluator completes on every numeric input: the extended-
domain run never takes the error channel, even when a zero rate or a zero
term reaches the annuity formula's division. -/
theorem c7_evaluator_total (p : RentalProperty) (t : ℚ) :
    ∃ r, evaluateE p t = Except.ok r := by
  obtain ⟨loan, rate, term, rty, rent, ins, rts, maint, fee, dep⟩ := p
  cases rty <;> exact ⟨_, rfl⟩

/-- The projection loop always runs for exactly `n` iterations. -/
theorem projectAux_length (r c : ℚ) :
    ∀ (n : ℕ) (bal cum : ℚ) (y : ℕ),
      (projectAux r c bal cum y n).length = n := by
  intro n
  induction n with
  | zero => intro bal cum y; rfl
  | succ n ih =>
      intro bal cum y
      simp [projectAux, ih]

/-- Closed form of the projection loop: starting from balance `bal`,
running total `cum` and loop counter `y`, the entry at index `i` records
year `y + i`, the interest on the `(i+1)`-times reduced balance, the
linear principal figure, and the running sum of the yearly interest. -/
theorem projectAux_get (r c : ℚ) :
    ∀ (n : ℕ) (bal cum : ℚ) (y i : ℕ), i < n →
      (projectAux r c bal cum y n).get? i =
        some ⟨y + i, (bal - ((i : ℚ) + 1) * c) * r, c * ((y : ℚ) + (i : ℚ)),
          cum + ∑ k ∈ Finset.range (i + 1), (bal - ((k : ℚ) + 1) * c) * r⟩ := by
  intro n
  induction n with
  | zero => intro bal cum y i hi; omega
  | succ n ih =>
      intro bal cum y i hi
      cases i with
      | zero =>
          simp only [projectAux, List.get?_cons_zero, Option.some.injEq,
            YearEntry.mk.injEq]
          refine ⟨by omega, by push_cast; ring, by push_cast; ring, ?_⟩
          simp only [show (0 : ℕ) + 1 = 1 from rfl, Finset.sum_range_one]
          push_cast
          ring
      | succ i =>
          have hin : i < n := by omega
          simp only [projectAux, List.get?_cons_succ]
          rw [ih _ _ _ _ hin]
          simp only [Option.some.injEq, YearEntry.mk.injEq]
          refine ⟨by omega, by push_cast; ring, by push_cast; ring, ?_⟩
          rw [Finset.sum_range_succ' (fun k => (bal - ((k : ℚ) + 1) * c) * r)]
          push_cast
          rw [Finset.sum_congr rfl
            (fun k _ => by ring :
              ∀ k ∈ Finset.range (i + 1),
                (bal - c - ((k : ℚ) + 1) * c) * r =
                  (bal - (((k : ℚ) + 1) + 1) * c) * r)]
          ring

/-- C1: the projector emits exactly `years` entries, and the entry for
year `y` (at index `y - 1`) records the balance reduced by
`y * total_cash_freed` before interest, the interest on that reduced
balance, the running sum of yearly interest, and the linear cumulative
principal `total_cash_freed * y`. -/
theorem c1_projector_sequence (hl r c : ℚ) (years : ℕ) (hy : 0 < years) :
    (project hl r c years).length = years ∧
    ∀ y : ℕ, 1 ≤ y → y ≤ years →
      (project hl r c years).get? (y - 1) =
        some ⟨y, (hl - (y : ℚ) * c) * r, c * (y : ℚ),
          ∑ k ∈ Finset.range y, (hl - ((k : ℚ) + 1) * c) * r⟩ := by
  refine ⟨projectAux_length r c years hl 0 1, ?_⟩
  intro y h1 h2
  obtain ⟨i, rfl⟩ : ∃ i, y = i + 1 := ⟨y - 1, by omega⟩
  have hi : i < years := by omega
  rw [project, projectAux_get r c years hl 0 1 (i + 1 - 1) (by omega)]
  simp only [Option.some.injEq, YearEntry.mk.injEq]
  refine ⟨by omega, by push_cast; ring, by push_cast; ring, by push_cast; ring⟩

/-- Witness for C1 at a concrete input (home loan 10, rate 1, freed cash
3, horizon 2). -/
theorem c1_projector_sequence_witness :
    (project 10 1 3 2).length = 2 ∧
    ∀ y : ℕ, 1 ≤ y → y ≤ 2 →
      (project 10 1 3 2).get? (y - 1) =
        some ⟨y, ((10 : ℚ) - (y : ℚ) * 3) * 1, 3 * (y : ℚ),
          ∑ k ∈ Finset.range y, ((10 : ℚ) - ((k : ℚ) + 1) * 3) * 1⟩ :=
  c1_projector_sequence 10 1 3 2 (by decide)

/-- C6: the projector never terminates early (it always emits exactly
`years` entries), and on a concrete input whose freed cash exceeds the
home loan over the horizon (`6 * 2 > 10`) the balance goes negative and
the recorded interest saved for that year is negative. -/
theorem c6_no_clamp_no_early_termination :
    (∀ (hl r c : ℚ) (years : ℕ), (project hl r c years).length = years) ∧
    (10 : ℚ) < 6 * 2 ∧
    (10 : ℚ) - 6 * 2 < 0 ∧
    (project 10 (5/100) 6 2).get? 1 = some ⟨2, -(1/10), 12, 1/10⟩ ∧
    (-(1/10) : ℚ) < 0 := by
  refine ⟨fun hl r c years => projectAux_length r c years hl 0 1,
    by norm_num, by norm_num, ?_, by norm_num⟩
  norm_num [project, projectAux]

/-- C9: with zero freed cash the projection is the identity on the
balance: every year's entry carries interest `home_loan * home_rate`,
zero principal redirected, and a cumulative figure that is just `year`
times that constant interest. -/
theorem c9_zero_cash_identity (hl r : ℚ) (years : ℕ) :
    ∀ i : ℕ, i < years →
      (project hl r 0 years).get? i =
        some ⟨i + 1, hl * r, 0, ((i : ℚ) + 1) * (hl * r)⟩ := by
  intro i hi
  rw [project, projectAux_get r 0 years hl 0 1 i hi]
  simp only [Option.some.injEq, YearEntry.mk.injEq]
  refine ⟨by omega, by ring, by ring, ?_⟩
  rw [Finset.sum_congr rfl
    (fun k _ => by ring :
      ∀ k ∈ Finset.range (i + 1),
        (hl - ((k : ℚ) + 1) * 0) * r = hl * r)]
  rw [Finset.sum_const, Finset.card_range]
  simp only [nsmul_eq_mul]
  push_cast
  ring

/-- Witness for C9: the second year of a three-year projection with zero
freed cash. -/
theorem c9_zero_cash_identity_witness :
    (project 100 (5/100) 0 3).get? 1 =
      some ⟨2, 100 * (5/100), 0, ((1 : ℚ) + 1) * (100 * (5/100))⟩ :=
  c9_zero_cash_identity 100 (5/100) 3 1 (by decide)


/-- Multiplying the capped deduction by a nonnegative factor keeps it
below the factor times the cap. -/
theorem min_mul_le_mul_right {e r t : ℚ} (ht : 0 ≤ t) :
    min e r * t ≤ t * r := by
  calc min e r * t ≤ r * t := mul_le_mul_of_nonneg_right (min_le_right _ _) ht
    _ = t * r := mul_comm _ _

/-- A capped deduction scaled by a rate in `[0, 1]` stays below the
nonnegative cap. -/
theorem min_mul_le_of_le_one {e r t : ℚ} (ht0 : 0 ≤ t) (ht1 : t ≤ 1)
    (hr : 0 ≤ r) : min e r * t ≤ r := by
  rcases le_or_lt 0 (min e r) with hm | hm
  · calc min e r * t ≤ min e r * 1 := mul_le_mul_of_nonneg_left ht1 hm
      _ = min e r := mul_one _
      _ ≤ r := min_le_right _ _
  · calc min e r * t ≤ 0 := mul_nonpos_iff.mpr (Or.inr ⟨hm.le, ht0⟩)
      _ ≤ r := hr

/-- C3 counterexample: at a negative tax rate the claimed inequality
`tax_savings ≤ tax_rate * annual_rent` fails (a zero-expense property
with weekly rent 1 and tax rate -1 has tax savings 0, but the bound is
-52). -/
theorem c3_counterexample :
    ¬ ((evaluate
        { loan := 0, rate := 0, term := 1,
          rtype := .principalAndInterest, rent_weekly := 1,
          insurance := 0, rates := 0, maintenance := 0, mgmt_fee := 0,
          depreciation := 0 } (-1)).tax_savings ≤
      (-1) * (evaluate
        { loan := 0, rate := 0, term := 1,
          rtype := .principalAndInterest, rent_weekly := 1,
          insurance := 0, rates := 0, maintenance := 0, mgmt_fee := 0,
          depreciation := 0 } (-1)).annual_rent) := by
  norm_num [evaluate]

/-- C3 (amended): the evaluator computes
`tax_savings = min(total_expenses, annual_rent) * tax_rate`; for a
nonnegative tax rate `tax_savings ≤ tax_rate * annual_rent`, and if the
tax rate moreover lies in `[0, 1]` and the weekly rent is nonnegative,
`tax_savings ≤ annual_rent`. -/
theorem c3_tax_savings_cap (p : RentalProperty) (t : ℚ) :
    (evaluate p t).tax_savings =
      min (evaluate p t).expenses (evaluate p t).annual_rent * t ∧
    (0 ≤ t → (evaluate p t).tax_savings ≤ t * (evaluate p t).annual_rent) ∧
    (0 ≤ t → t ≤ 1 → 0 ≤ p.rent_weekly →
      (evaluate p t).tax_savings ≤ (evaluate p t).annual_rent) := by
  refine ⟨rfl, fun ht => min_mul_le_mul_right ht,
    fun ht0 ht1 hrent => min_mul_le_of_le_one ht0 ht1 ?_⟩
  show (0 : ℚ) ≤ p.rent_weekly * 52
  exact mul_nonneg hrent (by norm_num)

/-- Witness for C3 at the scenario property and the 33% tax rate. -/
theorem c3_tax_savings_cap_witness :
    (evaluate scenarioProperty (33/100)).tax_savings ≤
      (33/100) * (evaluate scenarioProperty (33/100)).annual_rent ∧
    (evaluate scenarioProperty (33/100)).tax_savings ≤
      (evaluate scenarioProperty (33/100)).annual_rent :=
  ⟨(c3_tax_savings_cap scenarioProperty (33/100)).2.1 (by norm_num),
    (c3_tax_savings_cap scenarioProperty (33/100)).2.2 (by norm_num)
      (by norm_num) (by norm_num [scenarioProperty])⟩

/-- With a positive rate and a nonzero number of periods, the
numpy-financial payment on `-loan` is exactly the spec's annuity
formula on `loan`. -/
theorem npf_pmt_eq_pmtSpec {r : ℚ} (hr : 0 < r) {n : ℕ} (hn : n ≠ 0)
    (L : ℚ) : npf_pmt r n (-L) = pmtSpec r n L := by
  have h1 : 1 < (1 + r) ^ n := one_lt_pow₀ (by linarith) hn
  have htemp : ((1 + r) ^ n : ℚ) ≠ 0 := by positivity
  have hden : ((1 + r) ^ n : ℚ) - 1 ≠ 0 := sub_ne_zero.mpr (ne_of_gt h1)
  simp only [npf_pmt, pmtSpec, if_neg hr.ne']
  rw [zpow_neg, zpow_natCast]
  field_simp
  ring


/-- C2 counterexample: with a zero loan balance the annuity payment of
the claim is `0`, so the claim's conjunct that the payment is positive
fails (here at rate 5%, term 30 years). -/
theorem c2_counterexample :
    ¬ (0 < pmtSpec ((1/20) / 12) (30 * 12) 0) := by
  simp [pmtSpec]

/-- C2 (amended): for an interest-only property with positive rate and
positive term, `cash_freed` is `12 * payment - interest` with `payment`
the spec's annuity formula and `interest = loan_balance * interest_rate`;
the payment is positive whenever the loan balance is positive. -/
theorem c2_interest_only_cash_freed (p : RentalProperty) (t : ℚ)
    (hty : p.rtype = RepaymentType.interestOnly)
    (hr : 0 < p.rate) (hterm : 0 < p.term) :
    (evaluate p t).interest = p.loan * p.rate ∧
    (evaluate p t).cash_freed =
      12 * pmtSpec (p.rate / 12) (p.term * 12) p.loan - p.loan * p.rate ∧
    (0 < p.loan → 0 < pmtSpec (p.rate / 12) (p.term * 12) p.loan) := by
  have hr12 : 0 < p.rate / 12 := by positivity
  have hn : p.term * 12 ≠ 0 := by omega
  refine ⟨rfl, ?_, ?_⟩
  · simp only [evaluate, hty]
    rw [npf_pmt_eq_pmtSpec hr12 hn]
    ring
  · intro hL
    have h1 : 1 < (1 + p.rate / 12) ^ (p.term * 12) := one_lt_pow₀ (by linarith) hn
    have hinv : ((1 + p.rate / 12) ^ (p.term * 12) : ℚ)⁻¹ < 1 :=
      inv_lt_one_of_one_lt₀ h1
    rw [pmtSpec, zpow_neg, zpow_natCast]
    exact div_pos (by positivity) (by linarith)

/-- Witness for C2 at the scenario property. -/
theorem c2_interest_only_cash_freed_witness :
    scenarioProperty.rtype = RepaymentType.interestOnly ∧
    (0 : ℚ) < scenarioProperty.rate ∧ 0 < scenarioProperty.term ∧
    (evaluate scenarioProperty (33/100)).cash_freed =
      12 * pmtSpec (scenarioProperty.rate / 12) (scenarioProperty.term * 12)
          scenarioProperty.loan -
        scenarioProperty.loan * scenarioProperty.rate ∧
    0 < pmtSpec (scenarioProperty.rate / 12) (scenarioProperty.term * 12)
        scenarioProperty.loan := by
  have h := c2_interest_only_cash_freed scenarioProperty (33/100) rfl
    (by norm_num [scenarioProperty]) (by norm_num [scenarioProperty])
  exact ⟨rfl, by norm_num [scenarioProperty], by norm_num [scenarioProperty],
    h.2.1, h.2.2 (by norm_num [scenarioProperty])⟩

/-- C8 counterexample: the spec's expected monthly annuity payment of
about 2061.3 is off by more than 3 dollars: the code's payment at the
scenario property exceeds 2064.3. -/
theorem c8_counterexample :
    20613/10 + 3 <
      npf_pmt (scenarioProperty.rate / 12) (scenarioProperty.term * 12)
        (-scenarioProperty.loan) := by
  norm_num [npf_pmt, scenarioProperty]

/-- C8 (amended): at the spec's scenario the evaluator gives
`annual_rent = 39520`, `interest = 19211.5`, `mgmt_cost = 2055.04`,
`total_expenses = 32566.54` and `tax_savings = 10746.9582` exactly, the
monthly annuity payment is within 0.01 of 2064.41 (annual equivalent
24772.93), `cash_freed` is within 0.01 of 5561.43, the year-1 balance is
within 0.01 of 969438.57 with year-1 interest saved within 0.01 of
48374.98, and the projector's first entry records exactly those year-1
figures. -/
theorem c8_scenario_values :
    scenarioResult.annual_rent = 39520 ∧
    scenarioResult.interest = 192115/10 ∧
    scenarioResult.mgmt_cost = 205504/100 ∧
    scenarioResult.expenses = 3256654/100 ∧
    scenarioResult.tax_savings = 53734791/5000 ∧
    |npf_pmt (scenarioProperty.rate / 12) (scenarioProperty.term * 12)
        (-scenarioProperty.loan) - 206441/100| < 1/100 ∧
    |npf_pmt (scenarioProperty.rate / 12) (scenarioProperty.term * 12)
        (-scenarioProperty.loan) * 12 - 2477293/100| < 1/100 ∧
    |scenarioResult.cash_freed - 556143/100| < 1/100 ∧
    |(975000 - scenarioResult.cash_freed) - 96943857/100| < 1/100 ∧
    |(975000 - scenarioResult.cash_freed) * (499/10000) - 4837498/100|
        < 1/100 ∧
    (project 975000 (499/10000) scenarioResult.cash_freed 5).get? 0 =
      some ⟨1, (975000 - scenarioResult.cash_freed) * (499/10000),
        scenarioResult.cash_freed,
        (975000 - scenarioResult.cash_freed) * (499/10000)⟩ := by
  refine ⟨?_, ?_, ?_, ?_, ?_, ?_, ?_, ?_, ?_, ?_, ?_⟩ <;>
    norm_num [scenarioResult, scenarioProperty, evaluate, npf_pmt,
      min_def, abs_lt, project, projectAux]

end PropertyTool
